import Mathlib

/-!
Verification development for the murder-mystery narrative consistency engine.
Definitions are shallow embeddings of the Python source under src/:
personality-state updates (suspect_agent.py, agent_communication.py),
orchestrator briefing and contradiction analysis (agent_orchestrator.py),
case building (mystery_master.py), and accusation resolution
(detective_game.py, game.py).
-/

namespace Tuff

/-! Python exceptions that the embedded code can raise or catch. -/

inductive PyExc where
  | jsonDecodeError
  | keyError
  | attributeError
  | typeError
  | apiError
deriving DecidableEq, Repr

/-! A model of parsed JSON values as returned by json.loads. -/

inductive JsonVal where
  | jnull
  | jbool (b : Bool)
  | jnum (q : ℚ)
  | jstr (s : String)
  | jarr (xs : List JsonVal)
  | jobj (fields : List (String × JsonVal))

/-! Personality state: the three standard traits, each a numeric level.
Levels are rationals because the gossip path adds fractional deltas. -/

structure PersonalityLevels where
  anxious : ℚ
  moody : ℚ
  trust : ℚ
deriving DecidableEq, Repr

def clamp05 (x : ℚ) : ℚ := max 0 (min 5 x)

def levelsInRange (p : PersonalityLevels) : Prop :=
  (0 ≤ p.anxious ∧ p.anxious ≤ 5) ∧ (0 ≤ p.moody ∧ p.moody ≤ 5) ∧
    (0 ≤ p.trust ∧ p.trust ≤ 5)

/-- Numeric view of a JSON delta value: Python arithmetic accepts ints,
floats and booleans (bool is an int subclass), and raises TypeError on
anything else. -/
def jsonNum : JsonVal → Option ℚ
  | .jnum q => some q
  | .jbool b => some (if b then 1 else 0)
  | _ => none

def getTrait (p : PersonalityLevels) (t : String) : ℚ :=
  if t = "Anxious" then p.anxious
  else if t = "Moody" then p.moody
  else p.trust

def setTrait (p : PersonalityLevels) (t : String) (v : ℚ) : PersonalityLevels :=
  if t = "Anxious" then { p with anxious := v }
  else if t = "Moody" then { p with moody := v }
  else { p with trust := v }

def traitKnown (t : String) : Prop :=
  t = "Anxious" ∨ t = "Moody" ∨ t = "Trust"

instance (t : String) : Decidable (traitKnown t) := by
  unfold traitKnown; infer_instance

/-- The loop body of SuspectAgent.update_personality_levels: apply each
parsed delta in order, skipping unknown traits, clamping to 0..5, and
aborting with TypeError at the first non-numeric delta for a known trait
(earlier deltas stay applied, as in the Python loop). -/
def applyJsonChanges (p : PersonalityLevels) :
    List (String × JsonVal) → PersonalityLevels × Option PyExc
  | [] => (p, none)
  | (t, v) :: rest =>
    if traitKnown t then
      match jsonNum v with
      | some q => applyJsonChanges (setTrait p t (clamp05 (getTrait p t + q))) rest
      | none => (p, some .typeError)
    else applyJsonChanges p rest

/-- SuspectAgent.update_personality_levels: the analysis call and
json.loads are modelled by the input, an Except producing the parsed
JSON.  The try block catches only json.JSONDecodeError and KeyError
(returning empty changes); every other exception propagates, including
AttributeError when the parsed JSON is not an object and TypeError from
a non-numeric delta. -/
def update_personality_levels (p : PersonalityLevels)
    (analysis : Except PyExc JsonVal) :
    PersonalityLevels × Except PyExc (List (String × JsonVal)) :=
  match analysis with
  | .error .jsonDecodeError => (p, .ok [])
  | .error .keyError => (p, .ok [])
  | .error e => (p, .error e)
  | .ok (.jobj fields) =>
    match applyJsonChanges p fields with
    | (p2, none) => (p2, .ok fields)
    | (p2, some e) => (p2, .error e)
  | .ok _ => (p, .error .attributeError)

/-- The personality side effects of
AgentCommunicationManager.update_agent_from_conversation, keyed on the
relationship label: fractional deltas with one-sided clamps. -/
def gossip_personality_effect (p : PersonalityLevels) (relType : String) :
    PersonalityLevels :=
  if relType = "Close Friend" then
    { p with trust := min 5 (p.trust + 1/2) }
  else if relType = "Romantic Partner" then
    { p with trust := min 5 (p.trust + 7/10) }
  else if relType = "Enemy" then
    { p with anxious := min 5 (p.anxious + 1/2), trust := max 0 (p.trust - 1/2) }
  else if relType = "Rival" then
    { p with moody := min 5 (p.moody + 3/10), trust := max 0 (p.trust - 3/10) }
  else p

/-! A sequence of personality updates: interrogation-driven deltas
(the parsed JSON object entries) and gossip-driven effects. -/

inductive PersonalityUpdate where
  | interrogation (changes : List (String × JsonVal))
  | gossip (relType : String)

def applyUpdate (p : PersonalityLevels) : PersonalityUpdate → PersonalityLevels
  | .interrogation changes => (applyJsonChanges p changes).1
  | .gossip relType => gossip_personality_effect p relType

def applyUpdates (p : PersonalityLevels) (us : List PersonalityUpdate) :
    PersonalityLevels :=
  us.foldl applyUpdate p

/-! String helpers modelling Python primitives: the substring test of
the in operator, and str.lower. -/

def listStartsWith : List Char → List Char → Bool
  | [], _ => true
  | _ :: _, [] => false
  | a :: as, b :: bs => a == b && listStartsWith as bs

def listContainsSub : List Char → List Char → Bool
  | [], needle => needle.isEmpty
  | c :: t, needle => listStartsWith needle (c :: t) || listContainsSub t needle

/-- Python substring membership: strIn needle hay models needle in hay. -/
def strIn (needle hay : String) : Bool := listContainsSub hay.data needle.data

def lowerStr (s : String) : String := ⟨s.data.map Char.toLower⟩

def isSpaceChar (c : Char) : Bool :=
  c == ' ' || c == '\t' || c == '\n' || c == '\r'

/-- Python str.strip: whitespace removed from both ends. -/
def stripStr (s : String) : String :=
  ⟨((s.data.dropWhile isSpaceChar).reverse.dropWhile isSpaceChar).reverse⟩

/-! Case data model. -/

structure Clue where
  clue : String
  known_by : String
  is_true : Bool
  category : String
deriving DecidableEq, Repr

structure CaseState where
  victim : String
  murderer : String
  murderer_motive : String
  crime_location : String
  cause_of_death : String
  time_of_death : String
deriving DecidableEq, Repr

structure SuspectData where
  name : String
  age : ℕ
  gender : String
  occupation : String
  personality_traits : List String
  alibi : String
  is_victim : Bool
  is_murderer : Bool
deriving DecidableEq, Repr

/-! AgentOrchestrator: static case knowledge and briefing derivation.
Relationship keys are underscore-joined pair strings, as in the source;
membership tests on them are Python substring tests. -/

structure Orchestrator where
  case_state : CaseState
  suspects : List (String × SuspectData)
  relationships : List (String × String)
  clues : List Clue
deriving DecidableEq, Repr

def Orchestrator.murderer (o : Orchestrator) : String := o.case_state.murderer

def Orchestrator.victim (o : Orchestrator) : String := o.case_state.victim

def Orchestrator.motive (o : Orchestrator) : String := o.case_state.murderer_motive

def suspectLookup (o : Orchestrator) (name : String) : SuspectData :=
  ((o.suspects).lookup name).getD ⟨"", 0, "", "", [], "", false, false⟩

/-- The split-and-pick-other idiom used throughout the orchestrator:
names[0] if names[1] == suspect_name else names[1]. -/
def otherOfPair (pair name : String) : String :=
  let names := pair.splitOn "_"
  if names.getD 1 "" = name then names.getD 0 "" else names.getD 1 ""

def determine_role (o : Orchestrator) (name : String) : String :=
  if name = o.murderer then "murderer"
  else if name = o.victim then "victim"
  else "innocent_suspect"

def get_suspect_knowledge (o : Orchestrator) (name : String) : List String :=
  ("Their alibi: " ++ (suspectLookup o name).alibi) ::
    ((o.clues.filter (fun c => c.known_by == name)).map (fun c => "Clue: " ++ c.clue)
      ++ (o.relationships.filter
            (fun pr => strIn name pr.1 &&
              (pr.2 == "Close Friend" || pr.2 == "Romantic Partner"))).flatMap
          (fun pr =>
            (o.clues.filter (fun c => c.known_by == otherOfPair pr.1 name)).map
              (fun c => "Might know through " ++ otherOfPair pr.1 name ++ ": " ++ c.clue)))

def get_suspect_secrets (o : Orchestrator) (name : String) : List String :=
  (if name = o.murderer then
     ["Their guilt in killing " ++ o.victim, "Their motive: " ++ o.motive]
       ++ (o.clues.filter (fun c => c.is_true && c.known_by == name)).map
            (fun c => "Evidence: " ++ c.clue)
   else [])
  ++ (o.clues.filter (fun c => c.known_by == name && !c.is_true)).map
       (fun c => "False rumor: " ++ c.clue)

def get_relationship_context (o : Orchestrator) (name : String) :
    List (String × String) :=
  (o.relationships.filter (fun pr => strIn name pr.1)).map
    (fun pr => (otherOfPair pr.1 name, pr.2))

def predict_likely_questions (o : Orchestrator) (name : String) : List String :=
  ["Where were you when " ++ o.victim ++ " was killed?",
   "What\x27s your relationship with " ++ o.victim ++ "?",
   "Did you see anyone suspicious?",
   "What do you know about " ++ o.victim ++ "?"]
  ++ (if strIn "jealousy" (lowerStr o.motive) then
        (o.relationships.filter (fun pr => pr.2 == "Romantic Partner")).map
          (fun _ => "What\x27s your relationship status?")
      else [])

def get_likely_accusations (o : Orchestrator) (name : String) : List String :=
  (o.relationships.filter
     (fun pr => strIn name pr.1 && strIn o.victim pr.1 &&
       (pr.2 == "Rival" || pr.2 == "Enemy"))).map
    (fun _ => "Had conflict with " ++ o.victim)
  ++ (o.clues.filter (fun c => c.known_by == name && !c.is_true)).map
       (fun _ => "Spreading false rumors")

def identify_defensive_topics (o : Orchestrator) (name : String) : List String :=
  (if name = o.murderer then [o.victim, "alibi", "whereabouts"] else [])
    ++ get_likely_accusations o name

/-- AgentOrchestrator.generate_hintable_facts: the single generation call
and json.loads are modelled by the oracle argument.  A parsed JSON array
is returned as is; any exception, and any non-list parse, degrades to the
empty list. -/
def generate_hintable_facts (oracle : Except PyExc JsonVal) : List JsonVal :=
  match oracle with
  | .ok (.jarr xs) => xs
  | _ => []

structure Briefing where
  suspect_name : String
  role : String
  what_they_know : List String
  what_they_should_hide : List String
  relationships_context : List (String × String)
  likely_questions : List String
  defensive_topics : List String
  hintable_facts : List JsonVal

/-- AgentOrchestrator.get_suspect_briefing: all fields are derived
deterministically from the orchestrator state except hintable_facts,
which consumes the generate_hintable_facts oracle (a Text Generation
Service call). -/
def get_suspect_briefing (o : Orchestrator) (name : String)
    (hintOracle : Except PyExc JsonVal) : Briefing :=
  { suspect_name := name,
    role := determine_role o name,
    what_they_know := get_suspect_knowledge o name,
    what_they_should_hide := get_suspect_secrets o name,
    relationships_context := get_relationship_context o name,
    likely_questions := predict_likely_questions o name,
    defensive_topics := identify_defensive_topics o name,
    hintable_facts := generate_hintable_facts hintOracle }

/-! Contradiction analysis. -/

structure StatementRec where
  statement : String
  question_context : String
  timestamp : ℕ
deriving DecidableEq, Repr

def contradictionFlagged (prev curr : StatementRec) : Bool :=
  strIn "didn\x27t" (lowerStr curr.statement) &&
    strIn curr.question_context prev.statement

def contradiction_flags (stmts : List StatementRec) :
    List (StatementRec × StatementRec) :=
  (stmts.zip stmts.tail).filter (fun pr => contradictionFlagged pr.1 pr.2)

structure ContradictionAnalysis where
  suspect_name : String
  total_statements : ℕ
  contradictions : List (StatementRec × StatementRec)
  consistency_score : ℚ
deriving DecidableEq, Repr

def get_contradiction_analysis (stmtMap : List (String × List StatementRec))
    (name : String) : Option ContradictionAnalysis :=
  match stmtMap.lookup name with
  | none => none
  | some stmts =>
    if stmts.length < 2 then none
    else
      let flags := contradiction_flags stmts
      if flags.isEmpty then none
      else
        some { suspect_name := name, total_statements := stmts.length,
               contradictions := flags,
               consistency_score := max 0 (1 - (flags.length : ℚ) * (1/4)) }

/-! Orchestrator mutable tracking. -/

def assocAppend {α : Type} (m : List (String × List α)) (k : String) (v : α) :
    List (String × List α) :=
  match m.lookup k with
  | none => m ++ [(k, [v])]
  | some vs => m.map (fun kv => if kv.1 = k then (kv.1, vs ++ [v]) else kv)

structure OrchestratorTracking where
  suspect_statements : List (String × List StatementRec)
  interrogation_history : List (String × List (String × String × PersonalityLevels))
  revealed_clues : List String
deriving DecidableEq, Repr

def record_suspect_response (t : OrchestratorTracking)
    (name question response : String) (pstate : PersonalityLevels) :
    OrchestratorTracking :=
  let hist := assocAppend t.interrogation_history name (question, response, pstate)
  let ts := ((hist.lookup name).getD []).length
  { t with interrogation_history := hist,
           suspect_statements := assocAppend t.suspect_statements name
             { statement := response, question_context := question, timestamp := ts } }

/-! SuspectAgent. -/

structure SuspectAgentState where
  name : String
  age : ℕ
  gender : String
  occupation : String
  base_personality_traits : List String
  alibi : String
  is_victim : Bool
  is_murderer : Bool
  relationships : List (String × String)
  clues : List Clue
  known_clues : List Clue
  orchestration_briefing : Option Briefing
  personality_levels : PersonalityLevels
  conversation_history : List (String × String)

/-- SuspectAgent.reset_conversation: the method body is the single
assignment clearing the conversation history. -/
def reset_conversation (a : SuspectAgentState) : SuspectAgentState :=
  { a with conversation_history := [] }

structure GameSession where
  agent : SuspectAgentState
  orch : OrchestratorTracking

/-- Calling agent.reset_conversation within a session: the method never
references the orchestrator. -/
def session_reset_conversation (s : GameSession) : GameSession :=
  { s with agent := reset_conversation s.agent }

/-- SuspectAgent.get_opening_statement: one generation request per call,
with a fixed in-character fallback on any exception. -/
def get_opening_statement (genResult : Except PyExc String) : String :=
  match genResult with
  | .ok s => stripStr s
  | .error _ => "I understand you wanted to talk to me about what happened."

/-- A run of n calls to get_opening_statement: the i-th call issues the
i-th fresh service request (there is no cache inside the method). -/
def opening_statement_calls (oracle : ℕ → Except PyExc String) (n : ℕ) :
    List String :=
  (List.range n).map (fun i => get_opening_statement (oracle i))

/-- SuspectAgent.respond: appends the question, issues the generation
call with no surrounding try block (a failure propagates to the caller),
appends the answer, then runs update_personality_levels, whose uncaught
exceptions also propagate. -/
def respond (a : SuspectAgentState) (question : String)
    (genResult : Except PyExc String) (analysis : Except PyExc JsonVal) :
    Except PyExc (SuspectAgentState × String × List (String × JsonVal)) :=
  let a1 := { a with conversation_history :=
                a.conversation_history ++ [("user", question)] }
  match genResult with
  | .error e => .error e
  | .ok resp =>
    let a2 := { a1 with conversation_history :=
                  a1.conversation_history ++ [("assistant", resp)] }
    match update_personality_levels a2.personality_levels analysis with
    | (p2, .ok changes) => .ok ({ a2 with personality_levels := p2 }, resp, changes)
    | (_, .error e) => .error e

def pyExcMessage : PyExc → String
  | .jsonDecodeError => "Expecting value"
  | .keyError => "KeyError"
  | .attributeError => "AttributeError"
  | .typeError => "TypeError"
  | .apiError => "APIConnectionError"

/-- ConversationScreen.fetch_response_async: the surrounding try block
catches every exception from respond and turns it into a visible error
line instead of a crash. -/
def fetch_response_async (cache : List (String × String))
    (a : SuspectAgentState) (loadingMessage : String)
    (genResult : Except PyExc String) (analysis : Except PyExc JsonVal) :
    String :=
  match cache.lookup loadingMessage with
  | some r => r
  | none =>
    match respond a loadingMessage genResult analysis with
    | .ok (_, resp, _) => resp
    | .error e => "Error getting response: " ++ pyExcMessage e

/-! ConversationScreen open/close state: the fetch of the opening
statement is guarded by the conversation_started flag. -/

structure ConvScreenState where
  is_open : Bool
  conversation_started : Bool
  opening_fetches : ℕ
deriving DecidableEq, Repr

def conversation_screen_init : ConvScreenState :=
  { is_open := false, conversation_started := false, opening_fetches := 0 }

def toggle (s : ConvScreenState) : ConvScreenState :=
  let nowOpen := !s.is_open
  if nowOpen && !s.conversation_started then
    { is_open := nowOpen, conversation_started := true,
      opening_fetches := s.opening_fetches + 1 }
  else { s with is_open := nowOpen }

def toggleN (n : ℕ) (s : ConvScreenState) : ConvScreenState :=
  match n with
  | 0 => s
  | n + 1 => toggleN n (toggle s)

/-! AgentCommunicationManager.should_share_and_how. -/

def should_share_and_how (fromAgent toAgent : String)
    (relType : Option String) : Bool × ℚ :=
  match relType with
  | none => (false, 0)
  | some r =>
    if r = "Close Friend" then (true, 95/100)
    else if r = "Romantic Partner" then (true, 98/100)
    else if r = "Enemy" then (true, 15/100)
    else if r = "Rival" then (true, 35/100)
    else (false, 0)

/-! MurderMysteryMaster.build_world_state. -/

def SUSPECT_NAMES : List String := ["Nick", "Sarah", "James", "Emma", "David", "Lisa"]

structure FixedTraits where
  age : ℕ
  gender : String
  occupation : String
  personality_traits : List String
deriving DecidableEq, Repr

def FIXED_SUSPECTS : List (String × FixedTraits) :=
  [("Nick", ⟨30, "Male", "Lawyer", ["Intelligent", "Ambitious", "Witty"]⟩),
   ("Sarah", ⟨28, "Female", "Artist", ["Creative", "Sensitive", "Observant"]⟩),
   ("James", ⟨35, "Male", "Chef", ["Charming", "Confident", "Jealous"]⟩),
   ("Emma", ⟨32, "Female", "Tech Worker", ["Logical", "Introverted", "Calculated"]⟩),
   ("David", ⟨29, "Male", "Writer", ["Observant", "Sarcastic", "Moody"]⟩),
   ("Lisa", ⟨31, "Female", "Musician", ["Expressive", "Emotional", "Loyal"]⟩)]

/-- The parsed case-generation response: every field the builder reads,
as optional because the model may omit it. -/
structure CaseResponse where
  victim : Option String
  murderer : Option String
  murderer_motive : Option String
  crime_location : Option String
  cause_of_death : Option String
  time_of_death : Option String
  alibis : Option (List (String × String))
  relationships : Option (List (String × String))
  clues : Option (List Clue)
deriving DecidableEq, Repr

structure WorldState where
  victim : String
  murderer : String
  suspects : List (String × SuspectData)
  relationships : List (String × String)
  murderer_motive : String
  crime_location : String
  cause_of_death : String
  time_of_death : String
  clues : List Clue
deriving DecidableEq, Repr

def build_suspect_record (state : CaseResponse) (name victim murderer : String) :
    SuspectData :=
  let base := (FIXED_SUSPECTS.lookup name).getD ⟨0, "", "", []⟩
  { name := name, age := base.age, gender := base.gender,
    occupation := base.occupation,
    personality_traits := base.personality_traits,
    alibi := ((state.alibis.getD []).lookup name).getD "I was minding my own business.",
    is_victim := name == victim, is_murderer := name == murderer }

/-- MurderMysteryMaster.build_world_state: reading state of victim and of
murderer raises KeyError when absent; alibis, relationships, motive,
scene details and clues are read with defaulting .get calls. -/
def build_world_state (state : CaseResponse) : Except PyExc WorldState :=
  match state.victim with
  | none => .error .keyError
  | some v =>
    match state.murderer with
    | none => .error .keyError
    | some m =>
      .ok { victim := v, murderer := m,
            suspects := SUSPECT_NAMES.map (fun n => (n, build_suspect_record state n v m)),
            relationships := state.relationships.getD [],
            murderer_motive := state.murderer_motive.getD "Unknown motive",
            crime_location := state.crime_location.getD "Unknown location",
            cause_of_death := state.cause_of_death.getD "Unknown cause",
            time_of_death := state.time_of_death.getD "Unknown time",
            clues := state.clues.getD [] }

def exceptIsOk {ε α : Type} : Except ε α → Bool
  | .ok _ => true
  | .error _ => false

/-! Accusation resolution. -/

structure AccusationResult where
  correct : Bool
  lines : List String
deriving DecidableEq, Repr

/-- The accusation check in MurderMysteryGame.handle_events:
is_correct = accused_name == case_state murderer. -/
def accusation_is_correct (cs : CaseState) (accusedName : String) : Bool :=
  accusedName == cs.murderer

/-- DetectiveGame.resolve_accusation: the verdict and the lines printed
to the player. -/
def resolve_accusation (cs : CaseState) (accused : String) : AccusationResult :=
  if accused = cs.murderer then
    { correct := true,
      lines := [accused ++ " was indeed the murderer!",
                "Motive: " ++ cs.murderer_motive] }
  else
    { correct := false,
      lines := [accused ++ " is not the murderer.",
                "The real murderer was: " ++ cs.murderer,
                "Motive: " ++ cs.murderer_motive] }

/-! Concrete instances used to evaluate the definitions. -/

def exCaseState : CaseState :=
  { victim := "Sarah", murderer := "James",
    murderer_motive := "Jealousy over a romantic relationship",
    crime_location := "The study",
    cause_of_death := "Poisoning (antifreeze in their wine glass)",
    time_of_death := "Around 10:30 PM last night" }

def exampleAgent : SuspectAgentState :=
  { name := "Nick", age := 30, gender := "Male", occupation := "Lawyer",
    base_personality_traits := ["Anxious", "Moody", "Trust"],
    alibi := "I was reading in the library.",
    is_victim := false, is_murderer := false,
    relationships := [("Sarah", "Close Friend"), ("James", "Rival")],
    clues := [], known_clues := [],
    orchestration_briefing := none,
    personality_levels := { anxious := 3, moody := 3, trust := 3 },
    conversation_history := [] }

def exOrchestrator : Orchestrator :=
  { case_state := exCaseState,
    suspects :=
      [("Nick", ⟨"Nick", 30, "Male", "Lawyer",
         ["Intelligent", "Ambitious", "Witty"],
         "I was reading in the library.", false, false⟩),
       ("Sarah", ⟨"Sarah", 28, "Female", "Artist",
         ["Creative", "Sensitive", "Observant"],
         "I was painting upstairs.", true, false⟩),
       ("James", ⟨"James", 35, "Male", "Chef",
         ["Charming", "Confident", "Jealous"],
         "I was in the kitchen all evening.", false, true⟩)],
    relationships :=
      [("Nick_Sarah", "Close Friend"), ("Nick_James", "Rival"),
       ("Sarah_James", "Romantic Partner")],
    clues :=
      [{ clue := "A broken wine glass was found near the study",
         known_by := "Nick", is_true := true,
         category := "physical evidence" }] }

def exStatements : List StatementRec :=
  [{ statement := "I saw him in the library that night",
     question_context := "Where were you?", timestamp := 1 },
   { statement := "No, I didn\x27t see him at all",
     question_context := "saw him", timestamp := 2 }]

def exStatementMap : List (String × List StatementRec) := [("Nick", exStatements)]

def exResponseNoRelationships : CaseResponse :=
  { victim := some "Sarah", murderer := some "James",
    murderer_motive := some "Jealousy over a romantic relationship",
    crime_location := none, cause_of_death := none, time_of_death := none,
    alibis := some [("Nick", "I was reading in the library.")],
    relationships := none,
    clues := none }

def worldRelationshipsOf (e : Except PyExc WorldState) :
    Option (List (String × String)) :=
  match e with
  | .ok w => some w.relationships
  | .error _ => none

theorem clamp05_mem (x : ℚ) : 0 ≤ clamp05 x ∧ clamp05 x ≤ 5 := by
  unfold clamp05
  constructor
  · exact le_max_left 0 _
  · exact max_le (by norm_num) (min_le_left 5 x)

theorem setTrait_range (p : PersonalityLevels) (t : String) (v : ℚ)
    (hp : levelsInRange p) (h0 : 0 ≤ v) (h5 : v ≤ 5) :
    levelsInRange (setTrait p t v) := by
  obtain ⟨⟨a0, a5⟩, ⟨m0, m5⟩, ⟨t0, t5⟩⟩ := hp
  unfold setTrait
  split
  · exact ⟨⟨h0, h5⟩, ⟨m0, m5⟩, ⟨t0, t5⟩⟩
  · split
    · exact ⟨⟨a0, a5⟩, ⟨h0, h5⟩, ⟨t0, t5⟩⟩
    · exact ⟨⟨a0, a5⟩, ⟨m0, m5⟩, ⟨h0, h5⟩⟩

theorem applyJsonChanges_range (p : PersonalityLevels)
    (changes : List (String × JsonVal)) (hp : levelsInRange p) :
    levelsInRange (applyJsonChanges p changes).1 := by
  induction changes generalizing p with
  | nil => exact hp
  | cons hd tl ih =>
    obtain ⟨t, v⟩ := hd
    by_cases hk : traitKnown t
    · cases hv : jsonNum v with
      | some q =>
        simp only [applyJsonChanges, hk, hv, if_true]
        apply ih
        exact setTrait_range p t _ hp (clamp05_mem _).1 (clamp05_mem _).2
      | none =>
        simp only [applyJsonChanges, hk, hv, if_true]
        exact hp
    · simp only [applyJsonChanges, hk, if_false]
      exact ih p hp

theorem gossip_personality_effect_range (p : PersonalityLevels)
    (relType : String) (hp : levelsInRange p) :
    levelsInRange (gossip_personality_effect p relType) := by
  obtain ⟨⟨a0, a5⟩, ⟨m0, m5⟩, ⟨t0, t5⟩⟩ := hp
  unfold gossip_personality_effect
  by_cases h1 : relType = "Close Friend"
  · simp only [h1, if_true]
    refine ⟨⟨a0, a5⟩, ⟨m0, m5⟩, ?_, min_le_left _ _⟩
    exact le_min (by norm_num) (by linarith)
  · by_cases h2 : relType = "Romantic Partner"
    · simp only [h1, h2, if_true, if_false]
      refine ⟨⟨a0, a5⟩, ⟨m0, m5⟩, ?_, min_le_left _ _⟩
      exact le_min (by norm_num) (by linarith)
    · by_cases h3 : relType = "Enemy"
      · simp only [h1, h2, h3, if_true, if_false]
        refine ⟨⟨le_min (by norm_num) (by linarith), min_le_left _ _⟩,
          ⟨m0, m5⟩, le_max_left 0 _, max_le (by norm_num) (by linarith)⟩
      · by_cases h4 : relType = "Rival"
        · simp only [h1, h2, h3, h4, if_true, if_false]
          refine ⟨⟨a0, a5⟩,
            ⟨le_min (by norm_num) (by linarith), min_le_left _ _⟩,
            le_max_left 0 _, max_le (by norm_num) (by linarith)⟩
        · simp only [h1, h2, h3, h4, if_false]
          exact ⟨⟨a0, a5⟩, ⟨m0, m5⟩, ⟨t0, t5⟩⟩

/-- C1 (amended): after any sequence of interrogation-driven deltas and
gossip-driven effects, every trait level stays in the interval 0..5,
regardless of delta magnitude.  (Levels are not always integers: the
gossip path introduces fractional values, see the counterexample.) -/
theorem personality_levels_always_in_range (p : PersonalityLevels)
    (us : List PersonalityUpdate) (hp : levelsInRange p) :
    levelsInRange (applyUpdates p us) := by
  induction us generalizing p with
  | nil => exact hp
  | cons hd tl ih =>
    apply ih
    cases hd with
    | interrogation changes => exact applyJsonChanges_range p changes hp
    | gossip relType => exact gossip_personality_effect_range p relType hp

/-- C1 witness: the claim's own example, starting at 4 and applying +2
three times yields 5 and stays in range. -/
theorem personality_levels_always_in_range_witness :
    levelsInRange { anxious := 3, moody := 3, trust := 4 } ∧
      levelsInRange (applyUpdates { anxious := 3, moody := 3, trust := 4 }
        [.interrogation [("Trust", .jnum 2)],
         .interrogation [("Trust", .jnum 2)],
         .interrogation [("Trust", .jnum 2)]]) ∧
      (applyUpdates { anxious := 3, moody := 3, trust := 4 }
        [.interrogation [("Trust", .jnum 2)],
         .interrogation [("Trust", .jnum 2)],
         .interrogation [("Trust", .jnum 2)]]).trust = 5 :=
  ⟨by unfold levelsInRange; norm_num,
   personality_levels_always_in_range _ _ (by unfold levelsInRange; norm_num),
   by
    simp [applyUpdates, applyUpdate, applyJsonChanges, traitKnown, jsonNum,
      getTrait, setTrait, clamp05]
    norm_num [min_def, max_def]⟩

/-- C1 counterexample: a single Close Friend gossip effect moves Trust
from 3 to 7/2, which is not an integer (its reduced denominator is 2),
refuting the claim that every trait level is always an integer. -/
theorem personality_level_not_integer_after_gossip :
    (applyUpdates { anxious := 3, moody := 3, trust := 3 }
        [.gossip "Close Friend"]).trust = 7/2 ∧
      ((7 : ℚ)/2).den = 2 := by
  constructor
  · simp [applyUpdates, applyUpdate, gossip_personality_effect]
    norm_num [min_def]
  · norm_num

/-- C5 (amended): a json-decode failure of the delta analysis (or a
KeyError) is caught, returning empty changes with the personality state
unchanged; but every other failure propagates past the caller: a service
exception re-raises, and a response that parses to a JSON array or
string (not an object) raises AttributeError. -/
theorem personality_update_failure_behavior :
    (∀ p : PersonalityLevels,
      update_personality_levels p (.error .jsonDecodeError) = (p, .ok [])) ∧
      (∀ p : PersonalityLevels,
        update_personality_levels p (.error .keyError) = (p, .ok [])) ∧
      (∀ p : PersonalityLevels,
        update_personality_levels p (.error .apiError) = (p, .error .apiError)) ∧
      (∀ (p : PersonalityLevels) (xs : List JsonVal),
        update_personality_levels p (.ok (.jarr xs)) = (p, .error .attributeError)) ∧
      (∀ (p : PersonalityLevels) (s : String),
        update_personality_levels p (.ok (.jstr s)) = (p, .error .attributeError)) :=
  ⟨fun _ => rfl, fun _ => rfl, fun _ => rfl, fun _ _ => rfl, fun _ _ => rfl⟩

/-- C5 counterexample: a malformed analysis response that parses as the
object with Anxious mapped to 1 and Moody mapped to a string raises
TypeError past the caller, after the Anxious delta has already been
applied, refuting both the never-throws clause and the
state-left-unchanged clause. -/
theorem personality_update_throws_on_malformed_object :
    update_personality_levels { anxious := 3, moody := 3, trust := 3 }
        (.ok (.jobj [("Anxious", .jnum 1), ("Moody", .jstr "oops")])) =
      ({ anxious := 4, moody := 3, trust := 3 }, .error .typeError) := by
  have h : applyJsonChanges { anxious := 3, moody := 3, trust := 3 }
      [("Anxious", .jnum 1), ("Moody", .jstr "oops")] =
      ({ anxious := 4, moody := 3, trust := 3 }, some .typeError) := by
    simp [applyJsonChanges, traitKnown, jsonNum, setTrait, getTrait, clamp05]
    norm_num [max_def, min_def]
  simp [update_personality_levels, h]

/-- C2 (amended): a generation failure inside respond propagates to the
caller as the raised exception; the conversation-screen background fetch
catches it and surfaces a visible generic error line, so no crash
reaches the player; the fixed in-character fallback exists only in
get_opening_statement. -/
theorem respond_failure_surfaces_as_error_line :
    (∀ (a : SuspectAgentState) (q : String) (e : PyExc)
      (analysis : Except PyExc JsonVal),
      respond a q (.error e) analysis = .error e) ∧
      (∀ (a : SuspectAgentState) (q : String) (e : PyExc)
        (analysis : Except PyExc JsonVal),
        fetch_response_async [] a q (.error e) analysis =
          "Error getting response: " ++ pyExcMessage e) ∧
      (∀ e : PyExc,
        get_opening_statement (.error e) =
          "I understand you wanted to talk to me about what happened.") :=
  ⟨fun _ _ _ _ => rfl, fun _ _ _ _ => rfl, fun _ => rfl⟩

/-- C2 counterexample: with the generation service failing, respond
returns the error rather than any in-character fallback line, refuting
the claim that respond never propagates the failure. -/
theorem respond_propagates_generation_failure_example :
    respond exampleAgent "Where were you last night?" (.error .apiError)
        (.ok (.jobj [])) = .error .apiError := rfl

/-- C8: the gossip sharing rule is a pure function of the relationship
label alone (the agent names are ignored), with the fixed table Close
Friend (share, 0.95), Romantic Partner (share, 0.98), Enemy (share,
0.15), Rival (share, 0.35); every other label, and an absent
relationship, yields do-not-share. -/
theorem gossip_sharing_table (a b a2 b2 : String) (r : String) :
    should_share_and_how a b (some r) = should_share_and_how a2 b2 (some r) ∧
      should_share_and_how a b none = (false, 0) ∧
      should_share_and_how a b (some "Close Friend") = (true, 95/100) ∧
      should_share_and_how a b (some "Romantic Partner") = (true, 98/100) ∧
      should_share_and_how a b (some "Enemy") = (true, 15/100) ∧
      should_share_and_how a b (some "Rival") = (true, 35/100) ∧
      (r ≠ "Close Friend" → r ≠ "Romantic Partner" → r ≠ "Enemy" →
        r ≠ "Rival" → should_share_and_how a b (some r) = (false, 0)) := by
  refine ⟨rfl, rfl, ?_, ?_, ?_, ?_, ?_⟩
  · simp [should_share_and_how]
  · simp [should_share_and_how]
  · simp [should_share_and_how]
  · simp [should_share_and_how]
  · intro h1 h2 h3 h4
    simp [should_share_and_how, h1, h2, h3, h4]

/-- C8 witness: the Family Member label, and the Enemy row, evaluated
concretely. -/
theorem gossip_sharing_table_witness :
    should_share_and_how "Nick" "Sarah" (some "Family Member") = (false, 0) ∧
      should_share_and_how "Nick" "Sarah" (some "Enemy") = (true, 15/100) :=
  ⟨(gossip_sharing_table "Nick" "Sarah" "Nick" "Sarah" "Family Member").2.2.2.2.2.2
      (by decide) (by decide) (by decide) (by decide),
   (gossip_sharing_table "Nick" "Sarah" "Nick" "Sarah" "Family Member").2.2.2.2.1⟩

/-- C9: accusing the stored murderer yields the correct verdict; any
other name yields the incorrect verdict with the real murderer and
motive shown, and these revealed lines do not depend on which wrong
name was picked; the GUI check agrees with the verdict. -/
theorem accusation_verdict (cs : CaseState) (accused accused2 : String) :
    (accused = cs.murderer → resolve_accusation cs accused =
      { correct := true,
        lines := [accused ++ " was indeed the murderer!",
                  "Motive: " ++ cs.murderer_motive] }) ∧
      (accused ≠ cs.murderer → (resolve_accusation cs accused).correct = false ∧
        (resolve_accusation cs accused).lines =
          [accused ++ " is not the murderer.",
           "The real murderer was: " ++ cs.murderer,
           "Motive: " ++ cs.murderer_motive]) ∧
      (accused ≠ cs.murderer → accused2 ≠ cs.murderer →
        ((resolve_accusation cs accused).lines).tail =
          ((resolve_accusation cs accused2).lines).tail) ∧
      (resolve_accusation cs accused).correct = accusation_is_correct cs accused := by
  refine ⟨?_, ?_, ?_, ?_⟩
  · intro h
    simp [resolve_accusation, h]
  · intro h
    simp [resolve_accusation, h]
  · intro h h2
    simp [resolve_accusation, h, h2]
  · by_cases h : accused = cs.murderer <;>
      simp [resolve_accusation, accusation_is_correct, h]

/-- C9 witness: in the example case whose murderer is James, accusing
Nick is incorrect and reveals the same murderer and motive lines as
accusing Emma. -/
theorem accusation_verdict_witness :
    (resolve_accusation exCaseState "Nick").correct = false ∧
      (resolve_accusation exCaseState "Nick").lines =
        ["Nick" ++ " is not the murderer.",
         "The real murderer was: " ++ exCaseState.murderer,
         "Motive: " ++ exCaseState.murderer_motive] ∧
      ((resolve_accusation exCaseState "Nick").lines).tail =
        ((resolve_accusation exCaseState "Emma").lines).tail :=
  ⟨((accusation_verdict exCaseState "Nick" "Emma").2.1 (by decide)).1,
   ((accusation_verdict exCaseState "Nick" "Emma").2.1 (by decide)).2,
   (accusation_verdict exCaseState "Nick" "Emma").2.2.1 (by decide) (by decide)⟩

/-- C10: reset_conversation empties only the conversation history of the
agent it is called on: every other agent field (personality levels,
known clues, briefing, identity, relationships) is unchanged, and the
orchestrator tracking state of the session is untouched. -/
theorem reset_conversation_frame (s : GameSession) :
    (session_reset_conversation s).agent.conversation_history = [] ∧
      (session_reset_conversation s).agent.personality_levels =
        s.agent.personality_levels ∧
      (session_reset_conversation s).agent.known_clues = s.agent.known_clues ∧
      (session_reset_conversation s).agent.orchestration_briefing =
        s.agent.orchestration_briefing ∧
      (session_reset_conversation s).agent.name = s.agent.name ∧
      (session_reset_conversation s).agent.age = s.agent.age ∧
      (session_reset_conversation s).agent.gender = s.agent.gender ∧
      (session_reset_conversation s).agent.occupation = s.agent.occupation ∧
      (session_reset_conversation s).agent.alibi = s.agent.alibi ∧
      (session_reset_conversation s).agent.is_victim = s.agent.is_victim ∧
      (session_reset_conversation s).agent.is_murderer = s.agent.is_murderer ∧
      (session_reset_conversation s).agent.relationships = s.agent.relationships ∧
      (session_reset_conversation s).agent.clues = s.agent.clues ∧
      (session_reset_conversation s).agent.base_personality_traits =
        s.agent.base_personality_traits ∧
      (session_reset_conversation s).orch = s.orch :=
  ⟨rfl, rfl, rfl, rfl, rfl, rfl, rfl, rfl, rfl, rfl, rfl, rfl, rfl, rfl, rfl⟩

/-- C3 (amended): every briefing field except hintable_facts is derived
deterministically from the orchestrator state alone; hintable_facts is
the one field consuming a Text Generation Service call, and it degrades
to the empty list on any failure of that call. -/
theorem briefing_deterministic_except_hintable (o : Orchestrator)
    (name : String) (o1 o2 : Except PyExc JsonVal) :
    (get_suspect_briefing o name o1).suspect_name =
        (get_suspect_briefing o name o2).suspect_name ∧
      (get_suspect_briefing o name o1).role =
        (get_suspect_briefing o name o2).role ∧
      (get_suspect_briefing o name o1).what_they_know =
        (get_suspect_briefing o name o2).what_they_know ∧
      (get_suspect_briefing o name o1).what_they_should_hide =
        (get_suspect_briefing o name o2).what_they_should_hide ∧
      (get_suspect_briefing o name o1).relationships_context =
        (get_suspect_briefing o name o2).relationships_context ∧
      (get_suspect_briefing o name o1).likely_questions =
        (get_suspect_briefing o name o2).likely_questions ∧
      (get_suspect_briefing o name o1).defensive_topics =
        (get_suspect_briefing o name o2).defensive_topics ∧
      (get_suspect_briefing o name o1).hintable_facts =
        generate_hintable_facts o1 ∧
      (∀ e : PyExc, generate_hintable_facts (.error e) = []) :=
  ⟨rfl, rfl, rfl, rfl, rfl, rfl, rfl, rfl, fun _ => rfl⟩

/-- C3 counterexample: on the same case state, two invocations of
get_suspect_briefing whose generation calls resolve differently return
different briefings, refuting the claim that the briefing is computed
with no Text Generation Service call. -/
theorem briefing_depends_on_generation_call :
    get_suspect_briefing exOrchestrator "Nick"
        (.ok (.jarr [.jstr "saw Lisa leave the study"])) ≠
      get_suspect_briefing exOrchestrator "Nick" (.error .apiError) := by
  intro h
  have h2 := congrArg Briefing.hintable_facts h
  simp [get_suspect_briefing, generate_hintable_facts] at h2

/-- C4 (amended): a missing victim or murderer raises KeyError (fatal,
no case is built); when both are present the build succeeds even with
the relationships map entirely absent, which silently defaults to empty;
a missing individual alibi is filled with the default line. -/
theorem build_world_state_required_and_optional (v m : String)
    (mm cl cd td : Option String) (al rel : Option (List (String × String)))
    (cls : Option (List Clue)) :
    build_world_state
        { victim := none, murderer := some m, murderer_motive := mm,
          crime_location := cl, cause_of_death := cd, time_of_death := td,
          alibis := al, relationships := rel, clues := cls } =
      .error .keyError ∧
      build_world_state
          { victim := some v, murderer := none, murderer_motive := mm,
            crime_location := cl, cause_of_death := cd, time_of_death := td,
            alibis := al, relationships := rel, clues := cls } =
        .error .keyError ∧
      exceptIsOk (build_world_state
          { victim := some v, murderer := some m, murderer_motive := mm,
            crime_location := cl, cause_of_death := cd, time_of_death := td,
            alibis := al, relationships := rel, clues := cls }) = true ∧
      worldRelationshipsOf (build_world_state
          { victim := some v, murderer := some m, murderer_motive := mm,
            crime_location := cl, cause_of_death := cd, time_of_death := td,
            alibis := al, relationships := rel, clues := cls }) =
        some (rel.getD []) ∧
      (∀ n : String,
        (build_suspect_record
            { victim := some v, murderer := some m, murderer_motive := mm,
              crime_location := cl, cause_of_death := cd, time_of_death := td,
              alibis := al, relationships := rel, clues := cls } n v m).alibi =
          ((al.getD []).lookup n).getD "I was minding my own business.") :=
  ⟨rfl, rfl, rfl, rfl, fun _ => rfl⟩

/-- C4 counterexample: a generation response with victim and murderer
but no relationships field at all is not fatal: the case builds
successfully with an empty relationship map, refuting the claim that a
missing relationship label for any character pair is fatal. -/
theorem build_world_state_succeeds_without_relationships :
    exceptIsOk (build_world_state exResponseNoRelationships) = true ∧
      worldRelationshipsOf (build_world_state exResponseNoRelationships) =
        some [] :=
  ⟨rfl, rfl⟩

/-- C6: contradiction analysis returns no result object when the
character has fewer than 2 recorded statements (including no record at
all) or when no contradiction is flagged; when contradictions are
flagged the returned consistency score is max(0, 1 - 0.25 times the
contradiction count). -/
theorem contradiction_analysis_contract
    (stmtMap : List (String × List StatementRec)) (name : String) :
    (stmtMap.lookup name = none →
      get_contradiction_analysis stmtMap name = none) ∧
      (∀ stmts, stmtMap.lookup name = some stmts → stmts.length < 2 →
        get_contradiction_analysis stmtMap name = none) ∧
      (∀ stmts, stmtMap.lookup name = some stmts →
        contradiction_flags stmts = [] →
        get_contradiction_analysis stmtMap name = none) ∧
      (∀ stmts, stmtMap.lookup name = some stmts → 2 ≤ stmts.length →
        contradiction_flags stmts ≠ [] →
        get_contradiction_analysis stmtMap name =
          some { suspect_name := name, total_statements := stmts.length,
                 contradictions := contradiction_flags stmts,
                 consistency_score :=
                   max 0 (1 - ((contradiction_flags stmts).length : ℚ) * (1/4)) }) := by
  refine ⟨?_, ?_, ?_, ?_⟩
  · intro h
    simp [get_contradiction_analysis, h]
  · intro stmts h hlt
    simp [get_contradiction_analysis, h, hlt]
  · intro stmts h hfl
    simp [get_contradiction_analysis, h, hfl]
  · intro stmts h hlen hfl
    have hnlt : ¬stmts.length < 2 := by omega
    simp [get_contradiction_analysis, h, hnlt, List.isEmpty_iff, hfl]

/-- C6 witness: a two-statement history whose second statement contains
a negation and whose question context overlaps the first statement is
flagged, and the analysis is returned with score 1 - 0.25. -/
theorem contradiction_analysis_contract_witness :
    get_contradiction_analysis exStatementMap "Nick" =
      some { suspect_name := "Nick", total_statements := exStatements.length,
             contradictions := contradiction_flags exStatements,
             consistency_score :=
               max 0 (1 - ((contradiction_flags exStatements).length : ℚ) * (1/4)) } :=
  (contradiction_analysis_contract exStatementMap "Nick").2.2.2 exStatements rfl
    (by decide) (by decide)

/-- C7 (amended): the SuspectActor method itself issues a fresh
generation request on every call, and the caching lives one layer up:
however many times the conversation screen is toggled open and closed,
the opening statement is fetched at most once, guarded by the
conversation-started flag. -/
theorem opening_statement_fetched_at_most_once (n : ℕ) :
    (toggleN n conversation_screen_init).opening_fetches ≤ 1 := by
  have key : ∀ (m : ℕ) (s : ConvScreenState),
      s.opening_fetches ≤ (if s.conversation_started then 1 else 0) →
      (toggleN m s).opening_fetches ≤
        (if (toggleN m s).conversation_started then 1 else 0) := by
    intro m
    induction m with
    | zero => intro s hs; exact hs
    | succ k ih =>
      intro s hs
      apply ih
      unfold toggle
      cases ho : s.is_open <;> cases hc : s.conversation_started <;>
        simp [ho, hc] at hs ⊢ <;> omega
  have h := key n conversation_screen_init (by simp [conversation_screen_init])
  have h2 : (if (toggleN n conversation_screen_init).conversation_started
      then 1 else 0) ≤ 1 := by
    cases (toggleN n conversation_screen_init).conversation_started <;> simp
  omega

/-- C7 counterexample: two successive calls to get_opening_statement
each consume a fresh service response and return different statements,
refuting the claim that every later call returns the same statement as
the first without issuing another request. -/
theorem opening_statement_not_cached_example :
    opening_statement_calls
        (fun i => .ok (if i = 0 then "Ah, the detective." else "You again?")) 2 =
      ["Ah, the detective.", "You again?"] ∧
      ("Ah, the detective." : String) ≠ "You again?" := by
  constructor
  · rfl
  · decide

end Tuff
